import Mathlib

/-!
Shallow embedding of the Vasicek calibration / Monte-Carlo simulation core
(`src/calibration.py`, `src/simulation.py`) over the real numbers, together
with theorems settling the specification claims.

Modelling conventions:
* floats are embedded as `ℝ`; overflow and NaN do not exist in `ℝ`, so the
  one place where IEEE non-finiteness is observable (`calculate_max_drawdown`,
  which divides by a running maximum that may be zero) is modelled with
  `Option ℝ`, `none` marking a non-finite (NaN/inf) float result;
* Python exceptions are embedded as `Except`;
* a trajectory matrix of shape `(n_steps+1, n_paths)` is embedded as a total
  function `ℕ → ℕ → ℝ`; the cells of the concrete array are the values at
  row `t ≤ n_steps`, column `j < n_paths`, and theorems quantify over those
  ranges where the extent matters;
* pseudo-random draws (`rng.standard_normal`) are an input stream
  `z : ℕ → ℕ → ℝ` (`z t j` = the draw used for row `t`, column `j`);
* `scipy.optimize.minimize` is abstracted by an oracle argument
  `Option OptResult`: `none` means the call raised, `some res` carries the
  `success` flag and the optimized point `x`; that scipy's L-BFGS-B honours
  its box constraints is a hypothesis (`optWithinBounds`) where needed.
-/

namespace EuriborMC

/-- Source: the `VasicekParams` dataclass (kappa, theta, sigma, r0) shared by
`calibration.py` and `simulation.py`; the spec calls it `ParameterSet`. -/
structure VasicekParams where
  kappa : ℝ
  theta : ℝ
  sigma : ℝ
  r0 : ℝ

/-- The one error the calibrators raise (`ValueError("Série trop courte ...")`);
the spec calls it `InsufficientDataError`. -/
inductive CalibError where
  | insufficientData

/-- The error `run_monte_carlo_simulation` raises on an unknown method string
(`ValueError("Méthode inconnue ...")`); the spec calls it `InvalidMethodError`. -/
inductive SimError where
  | invalidMethod

/-- Arithmetic mean of a list (numpy `mean`); `0` on the empty list, which is
never hit behind the length guards. -/
noncomputable def listMean (l : List ℝ) : ℝ := l.sum / l.length

/-- Minimum of a list (pandas `Series.min`); guarded uses are on nonempty lists. -/
noncomputable def listMin : List ℝ → ℝ
  | [] => 0
  | a :: as => as.foldl min a

/-- Maximum of a list (pandas `Series.max`); guarded uses are on nonempty lists. -/
noncomputable def listMax : List ℝ → ℝ
  | [] => 0
  | a :: as => as.foldl max a

/-- numpy `std(ddof)`: square root of the mean squared deviation with
`len - ddof` in the denominator. -/
noncomputable def stdDdof (l : List ℝ) (ddof : ℕ) : ℝ :=
  Real.sqrt ((l.map fun e => (e - listMean l) ^ 2).sum / ((l.length : ℝ) - (ddof : ℝ)))

/-- `np.linalg.lstsq` applied to the design matrix `column_stack([ones, x])`:
the least-squares fit of `y = a + b·x`, written through the normal equations
(the unique solution when `Σ(xᵢ-x̄)² ≠ 0`, which is the case in every concrete
evaluation below). Returns `(a, b)`. -/
noncomputable def lstsqFit (x y : List ℝ) : ℝ × ℝ :=
  let n : ℝ := x.length
  let xbar := x.sum / n
  let ybar := y.sum / n
  let sxx := (x.map fun xi => (xi - xbar) ^ 2).sum
  let sxy := ((x.zip y).map fun q => (q.1 - xbar) * (q.2 - ybar)).sum
  let b := sxy / sxx
  (ybar - b * xbar, b)

/-- Source: `calibrate_vasicek_ols(rates, dt)` in `calibration.py`.
`x = r[:-1]`, `y = r[1:]`, guard `len(x) < 10`; least-squares fit; clamp
`b` into `[0.001, 0.999]` when `b ≤ 0 or b ≥ 1`; `kappa = -ln(b)/dt`,
`theta = a/(1-b)`; residual std with `ddof=2`; `sigma` via the continuous-time
adjustment when `kappa > 0`, else `resid_std/sqrt(dt)`; floor non-positive
`sigma` at `0.01`; return `max(0.001, kappa)`, `theta`, `sigma`, `r0 = r[-1]`. -/
noncomputable def calibrate_vasicek_ols (rates : List ℝ) (dt : ℝ) :
    Except CalibError VasicekParams :=
  let r := rates
  let x := r.dropLast
  let y := r.tail
  let n := x.length
  if n < 10 then .error .insufficientData
  else
    let ab := lstsqFit x y
    let a := ab.1
    let b0 := ab.2
    let b := if b0 ≤ 0 ∨ 1 ≤ b0 then max 0.001 (min 0.999 b0) else b0
    let kappa := -Real.log b / dt
    let theta := a / (1 - b)
    let residuals := (x.zip y).map fun q => q.2 - (a + b * q.1)
    let sigma_hat := stdDdof residuals 2
    let sigma0 :=
      if 0 < kappa then sigma_hat * Real.sqrt (2 * kappa / (1 - b ^ 2))
      else sigma_hat / Real.sqrt dt
    let sigma := if sigma0 ≤ 0 then 0.01 else sigma0
    .ok ⟨max 0.001 kappa, theta, sigma, r.getLastD 0⟩

/-- The outcome of the `scipy.optimize.minimize` call inside
`calibrate_vasicek_mle`: the `success` flag and the optimized point
`x = (kappa, theta, sigma)`. -/
structure OptResult where
  success : Bool
  kappa : ℝ
  theta : ℝ
  sigma : ℝ

/-- The box constraints `bounds = [(0.001, 10), (rates.min()-0.01,
rates.max()+0.01), (0.001, 1)]` passed to the optimizer; L-BFGS-B keeps its
iterates (hence its reported optimum) inside them. -/
def optWithinBounds (rates : List ℝ) (res : OptResult) : Prop :=
  0.001 ≤ res.kappa ∧ res.kappa ≤ 10 ∧
  listMin rates - 0.01 ≤ res.theta ∧ res.theta ≤ listMax rates + 0.01 ∧
  0.001 ≤ res.sigma ∧ res.sigma ≤ 1

/-- `none`, or `some res` with `res.success = false`: the branches of
`calibrate_vasicek_mle` that fall back to the regression estimate. -/
def optFailed : Option OptResult → Prop
  | none => True
  | some res => res.success = false

/-- Source: `calibrate_vasicek_mle(rates, dt)` in `calibration.py`.
Guard `len(r) < 10`; then `minimize(...)` (abstracted by `opt`): on
`result.success` return the optimized triple with `r0 = r[-1]`; on
non-success, and likewise when `minimize` raised, return
`calibrate_vasicek_ols(rates, dt)` — whose own exception, if any, propagates
to the caller (the `except` branch re-enters `calibrate_vasicek_ols`
unprotected). The OLS-seeded start point `x0` only parameterizes the
optimizer and is absorbed in the oracle `opt`. -/
noncomputable def calibrate_vasicek_mle (rates : List ℝ) (dt : ℝ)
    (opt : Option OptResult) : Except CalibError VasicekParams :=
  if rates.length < 10 then .error .insufficientData
  else
    match opt with
    | some res =>
      if res.success then .ok ⟨res.kappa, res.theta, res.sigma, rates.getLastD 0⟩
      else calibrate_vasicek_ols rates dt
    | none => calibrate_vasicek_ols rates dt

/-- Source: the inner `neg_log_likelihood(params)` of `calibrate_vasicek_mle`.
Penalty `1e10` when `kappa ≤ 0 or sigma ≤ 0`; `var_r = sigma²·(1 -
exp(-kappa·dt)²)/(2·kappa)`; penalty when `var_r ≤ 0`; otherwise accumulate
the per-transition Gaussian log-density over consecutive observations and
negate. (`OverflowError`/`ZeroDivisionError` cannot arise over `ℝ`.) -/
noncomputable def neg_log_likelihood (r : List ℝ) (dt kappa theta sigma : ℝ) : ℝ :=
  if kappa ≤ 0 ∨ sigma ≤ 0 then 1e10
  else
    let exp_kappa_dt := Real.exp (-kappa * dt)
    let var_r := sigma ^ 2 * (1 - exp_kappa_dt ^ 2) / (2 * kappa)
    if var_r ≤ 0 then 1e10
    else
      -((r.zip r.tail).map fun q =>
        -0.5 * Real.log (2 * Real.pi * var_r)
          - 0.5 * (q.2 - (theta + (q.1 - theta) * exp_kappa_dt)) ^ 2 / var_r).sum

/-- Source: `simulate_vasicek_exact` in `simulation.py`. Row 0 is `r0`; row
`t+1` advances row `t` by the exact OU transition
`theta + (prev - theta)·exp(-kappa·dt) + sqrt(sigma²·(1-exp(-2·kappa·dt))/(2·kappa))·z`.
`z t j` is the standard-normal draw for row `t`, column `j`. -/
noncomputable def simulate_vasicek_exact (p : VasicekParams) (dt : ℝ)
    (z : ℕ → ℕ → ℝ) : ℕ → ℕ → ℝ
  | 0, _ => p.r0
  | t + 1, j =>
    p.theta + (simulate_vasicek_exact p dt z t j - p.theta) * Real.exp (-p.kappa * dt)
      + Real.sqrt (p.sigma ^ 2 * (1 - Real.exp (-2 * p.kappa * dt)) / (2 * p.kappa))
        * z (t + 1) j

/-- Source: `simulate_vasicek_euler` in `simulation.py`. Row 0 is `r0`; row
`t+1` is `prev + kappa·(theta - prev)·dt + sigma·sqrt(dt)·z`. -/
noncomputable def simulate_vasicek_euler (p : VasicekParams) (dt : ℝ)
    (z : ℕ → ℕ → ℝ) : ℕ → ℕ → ℝ
  | 0, _ => p.r0
  | t + 1, j =>
    simulate_vasicek_euler p dt z t j
      + p.kappa * (p.theta - simulate_vasicek_euler p dt z t j) * dt
      + p.sigma * Real.sqrt dt * z (t + 1) j

/-- Modelled from the spec: the standard-normal draw stream of numpy's
`default_rng(seed)` (`simulation.py` lines 34-37 / 73-76), whose contract —
"a supplied seed makes the entire path set bit-for-bit reproducible" — makes
it a fixed deterministic function of the seed. The particular values are
immaterial to the claims proved here; only functionality in the seed is used. -/
noncomputable def default_rng_standard_normal (seed : ℤ) (t j : ℕ) : ℝ :=
  Real.sin ((seed : ℝ) + 3 * (t : ℝ) + 7 * (j : ℝ))

/-- `simulate_vasicek_exact` run with the seeded generator, as the source does
when a seed is supplied. -/
noncomputable def simulate_vasicek_exact_seeded (p : VasicekParams) (dt : ℝ)
    (seed : ℤ) : ℕ → ℕ → ℝ :=
  simulate_vasicek_exact p dt (default_rng_standard_normal seed)

/-- `simulate_vasicek_euler` run with the seeded generator. -/
noncomputable def simulate_vasicek_euler_seeded (p : VasicekParams) (dt : ℝ)
    (seed : ℤ) : ℕ → ℕ → ℝ :=
  simulate_vasicek_euler p dt (default_rng_standard_normal seed)

/-- Python `str.lower()`: lowercase every character (character-list form of
`String.toLower`, kept kernel-evaluable). -/
def strLower (s : String) : String := ⟨s.data.map Char.toLower⟩

/-- Source: the method dispatch of `run_monte_carlo_simulation` in
`simulation.py`: `method.lower() == "exact"` → exact scheme,
`method.lower() == "euler"` → Euler scheme, otherwise raise. The statistics
pass (`calculate_simulation_statistics`) is embedded separately below. -/
noncomputable def run_monte_carlo_simulation (p : VasicekParams) (dt : ℝ)
    (method : String) (z : ℕ → ℕ → ℝ) : Except SimError (ℕ → ℕ → ℝ) :=
  if strLower method = "exact" then .ok (simulate_vasicek_exact p dt z)
  else if strLower method = "euler" then .ok (simulate_vasicek_euler p dt z)
  else .error .invalidMethod

/-- The `validation` group of the statistics bundle. -/
structure ValidationStats where
  theoretical_terminal_mean : ℝ
  theoretical_terminal_std : ℝ
  mean_error : ℝ
  std_error : ℝ

/-- `np.mean(paths[-1])` for an `(n_steps+1) × n_paths` matrix: the terminal
row is row `n_steps`. -/
noncomputable def terminalMean (paths : ℕ → ℕ → ℝ) (n_steps n_paths : ℕ) : ℝ :=
  (∑ j ∈ Finset.range n_paths, paths n_steps j) / (n_paths : ℝ)

/-- `np.std(paths[-1], ddof=1)`: sample standard deviation of the terminal row. -/
noncomputable def terminalStd (paths : ℕ → ℕ → ℝ) (n_steps n_paths : ℕ) : ℝ :=
  Real.sqrt
    ((∑ j ∈ Finset.range n_paths, (paths n_steps j - terminalMean paths n_steps n_paths) ^ 2)
      / ((n_paths : ℝ) - 1))

/-- Source: the `validation` block of `calculate_simulation_statistics` in
`simulation.py` (lines 168-178). Note `T = len(paths) * dt` in the source,
and `len(paths)` is the ROW count `n_steps + 1` of the matrix. -/
noncomputable def calculate_simulation_statistics_validation (paths : ℕ → ℕ → ℝ)
    (n_steps n_paths : ℕ) (p : VasicekParams) (dt : ℝ) : ValidationStats :=
  let T : ℝ := ((n_steps : ℝ) + 1) * dt
  let theoretical_mean := p.theta + (p.r0 - p.theta) * Real.exp (-p.kappa * T)
  let theoretical_var := p.sigma ^ 2 / (2 * p.kappa) * (1 - Real.exp (-2 * p.kappa * T))
  { theoretical_terminal_mean := theoretical_mean
    theoretical_terminal_std := Real.sqrt theoretical_var
    mean_error := |terminalMean paths n_steps n_paths - theoretical_mean|
    std_error := |terminalStd paths n_steps n_paths - Real.sqrt theoretical_var| }

/-- `np.maximum.accumulate` down column `j`: the running maximum of
`paths[0..t, j]`. -/
noncomputable def runningMax (paths : ℕ → ℕ → ℝ) (j : ℕ) : ℕ → ℝ
  | 0 => paths 0 j
  | t + 1 => max (runningMax paths j t) (paths (t + 1) j)

open Classical in
/-- Source: `calculate_max_drawdown` in `simulation.py` (lines 192-201): per
column, `drawdown = (peak - path) / peak` with `peak` the running maximum,
take the max over time, then average over columns. The division carries no
guard; in IEEE arithmetic an entry with `peak = 0` is NaN (`0/0`) or `±inf`,
and `np.max` / `np.mean` propagate non-finiteness, so the float result is
non-finite exactly when some column's running maximum hits zero. That case is
modelled as `none`; `some v` is the finite value computed otherwise. -/
noncomputable def calculate_max_drawdown (paths : ℕ → ℕ → ℝ)
    (n_steps n_paths : ℕ) : Option ℝ :=
  if ∃ j ∈ Finset.range n_paths, ∃ t ∈ Finset.range (n_steps + 1),
      runningMax paths j t = 0 then none
  else
    some ((∑ j ∈ Finset.range n_paths,
      (Finset.range (n_steps + 1)).sup' Finset.nonempty_range_succ fun t =>
        (runningMax paths j t - paths t j) / runningMax paths j t) / (n_paths : ℝ))

/-- A five-observation series (shorter than every calibration threshold). -/
noncomputable def fiveObs : List ℝ := [1, 2, 3, 4, 5]

/-- A ten-observation series: it passes the likelihood entry check
(`len(r) < 10` is false) but gives only nine consecutive pairs to the
regression strategy. -/
noncomputable def tenObs : List ℝ := [1, 2, 3, 4, 5, 6, 7, 8, 9, 10]

/-- Another ten-observation series, used for the regression threshold claim. -/
noncomputable def tenObsB : List ℝ :=
  [0.01, 0.02, 0.03, 0.04, 0.05, 0.06, 0.07, 0.08, 0.09, 0.1]

/-- An eleven-observation series (long enough for both strategies). -/
noncomputable def elevenObs : List ℝ := [0, 0, 0, 0, 0, 0, 0, 0, 0, 0, 0]

/-- The regression strategy exactly as the claim words it, step by step:
least-squares fit of `y = a + b·x` over consecutive pairs; if the slope lies
outside the open interval (0,1), clamp it to the nearest bound inside
[0.001, 0.999]; `kappa = -ln(b)/dt` and `theta = a/(1-b)`; residual standard
deviation with n-2 degrees of freedom; `sigma = resid_std·sqrt(2·kappa/(1-b²))`
when `kappa > 0`, else `resid_std/sqrt(dt)`; floor non-positive `sigma` at a
small positive constant; `r0` is the last observed value. (The claim does
not floor `kappa`.) -/
noncomputable def ols_claim_steps (rates : List ℝ) (dt : ℝ) :
    Except CalibError VasicekParams :=
  if rates.dropLast.length < 10 then .error .insufficientData
  else
    let fit := lstsqFit rates.dropLast rates.tail
    let a := fit.1
    let b := if 0 < fit.2 ∧ fit.2 < 1 then fit.2
      else if 1 ≤ fit.2 then 0.999 else 0.001
    let kappa := -Real.log b / dt
    let theta := a / (1 - b)
    let resid_std :=
      stdDdof ((rates.dropLast.zip rates.tail).map fun q => q.2 - (a + b * q.1)) 2
    let sigma :=
      if 0 < kappa then resid_std * Real.sqrt (2 * kappa / (1 - b ^ 2))
      else resid_std / Real.sqrt dt
    .ok ⟨kappa, theta, if sigma ≤ 0 then 0.01 else sigma, rates.getLastD 0⟩

/-- The claim's pipeline amended with the one step the source adds and the
claim omits: the returned `kappa` is floored at `0.001`. -/
noncomputable def ols_claim_steps_amended (rates : List ℝ) (dt : ℝ) :
    Except CalibError VasicekParams :=
  (ols_claim_steps rates dt).map fun p => ⟨max 0.001 p.kappa, p.theta, p.sigma, p.r0⟩

/-- Twelve observations, each half the previous: the least-squares AR(1) fit
over the eleven consecutive pairs is exactly `a = 0`, `b = 1/2`. -/
noncomputable def geomObs : List ℝ :=
  [1024, 512, 256, 128, 64, 32, 16, 8, 4, 2, 1, 1 / 2]

/-! ## Theorems settling the claims -/

/-- The source's slope clamp (`max(0.001, min(0.999, b))` applied when
`b ≤ 0 or b ≥ 1`) coincides with "clamp to the nearest bound inside
[0.001, 0.999] when outside (0,1)". -/
theorem clamp_forms_agree (b0 : ℝ) :
    (if b0 ≤ 0 ∨ 1 ≤ b0 then max 0.001 (min 0.999 b0) else b0)
      = if 0 < b0 ∧ b0 < 1 then b0 else if 1 ≤ b0 then 0.999 else 0.001 := by
  rcases le_or_lt b0 0 with h0 | h0
  · rw [if_pos (Or.inl h0), if_neg (fun hc => absurd h0 (not_le.mpr hc.1)),
      if_neg (by intro hc; linarith), min_eq_right (by linarith),
      max_eq_left (by linarith)]
  · rcases lt_or_le b0 1 with h1 | h1
    · rw [if_neg (by rintro (hc | hc) <;> linarith), if_pos ⟨h0, h1⟩]
    · rw [if_pos (Or.inr h1), if_neg (fun hc => absurd h1 (not_le.mpr hc.2)),
        if_pos h1, min_eq_left (by linarith), max_eq_right (by norm_num)]

/-- The regression calibrator never returns a parameter set with
non-positive `kappa` or `sigma`: `kappa` is floored by `max 0.001 ·` and a
non-positive computed `sigma` is replaced by `0.01`. -/
theorem ols_returns_positive (rates : List ℝ) (dt : ℝ) (p : VasicekParams)
    (h : calibrate_vasicek_ols rates dt = .ok p) : 0 < p.kappa ∧ 0 < p.sigma := by
  by_cases hn : rates.dropLast.length < 10
  · simp only [calibrate_vasicek_ols, if_pos hn] at h
    exact absurd h (by simp)
  · have hfloor : ∀ x : ℝ, 0 < if x ≤ 0 then (0.01 : ℝ) else x := by
      intro x
      split
      · norm_num
      · next hx => exact lt_of_not_le hx
    simp only [calibrate_vasicek_ols, if_neg hn, Except.ok.injEq] at h
    subst h
    exact ⟨lt_max_iff.mpr (Or.inl (by norm_num)), hfloor _⟩

/-- The regression calibrator succeeds (returns `.ok`) as soon as its
consecutive-pairs guard passes. -/
theorem ols_ok_of_long (rates : List ℝ) (dt : ℝ) (h : 11 ≤ rates.length) :
    ∃ p, calibrate_vasicek_ols rates dt = .ok p := by
  have hn : ¬ rates.dropLast.length < 10 := by
    rw [List.length_dropLast]; omega
  exact ⟨_, by simp only [calibrate_vasicek_ols, if_neg hn]; rfl⟩

/-- C6: for both simulation schemes and every parameter set, step size, noise
stream and column, row 0 of the trajectory matrix equals `r0`; and in the
degenerate zero-horizon case (`kappa=0.5, theta=0.03, sigma=0.01, r0=0.03,
dt=1/252, steps=0`) every cell of the matrix — every row `t ≤ 0`, every
column — equals `r0 = 0.03`. -/
theorem C6_row_zero_is_r0 :
    ∀ (p : VasicekParams) (dt : ℝ) (z : ℕ → ℕ → ℝ) (j : ℕ),
      (simulate_vasicek_exact p dt z 0 j = p.r0
        ∧ simulate_vasicek_euler p dt z 0 j = p.r0)
      ∧ ∀ t ≤ 0,
          simulate_vasicek_exact ⟨0.5, 0.03, 0.01, 0.03⟩ (1 / 252) z t j = 0.03
            ∧ simulate_vasicek_euler ⟨0.5, 0.03, 0.01, 0.03⟩ (1 / 252) z t j = 0.03 := by
  intro p dt z j
  refine ⟨⟨by simp [simulate_vasicek_exact], by simp [simulate_vasicek_euler]⟩, ?_⟩
  intro t ht
  have h0 : t = 0 := Nat.le_zero.mp ht
  subst h0
  exact ⟨by simp [simulate_vasicek_exact], by simp [simulate_vasicek_euler]⟩

theorem C6_row_zero_is_r0_witness :
    simulate_vasicek_exact ⟨0.5, 0.03, 0.01, 0.03⟩ (1 / 252) (fun _ _ => 0) 0 0 = 0.03
      ∧ simulate_vasicek_euler ⟨0.5, 0.03, 0.01, 0.03⟩ (1 / 252) (fun _ _ => 0) 0 0 = 0.03 :=
  (C6_row_zero_is_r0 ⟨0.5, 0.03, 0.01, 0.03⟩ (1 / 252) (fun _ _ => 0) 0).2 0 (le_refl 0)

/-- C7: for both simulation schemes, two runs with identical parameter set,
step size and the same supplied integer seed produce identical trajectory
matrices: the seeded simulators are deterministic functions of their inputs
(the seeded generator stream is itself a function of the seed). -/
theorem C7_seed_reproducibility :
    ∀ (p₁ p₂ : VasicekParams) (dt₁ dt₂ : ℝ) (s₁ s₂ : ℤ),
      p₁ = p₂ → dt₁ = dt₂ → s₁ = s₂ →
      simulate_vasicek_exact_seeded p₁ dt₁ s₁ = simulate_vasicek_exact_seeded p₂ dt₂ s₂
        ∧ simulate_vasicek_euler_seeded p₁ dt₁ s₁ = simulate_vasicek_euler_seeded p₂ dt₂ s₂ := by
  intro p₁ p₂ dt₁ dt₂ s₁ s₂ hp hdt hs
  subst hp; subst hdt; subst hs
  exact ⟨rfl, rfl⟩

theorem C7_seed_reproducibility_witness :
    simulate_vasicek_exact_seeded ⟨0.5, 0.03, 0.01, 0.03⟩ (1 / 252) 42
      = simulate_vasicek_exact_seeded ⟨0.5, 0.03, 0.01, 0.03⟩ (1 / 252) 42 :=
  (C7_seed_reproducibility ⟨0.5, 0.03, 0.01, 0.03⟩ ⟨0.5, 0.03, 0.01, 0.03⟩
    (1 / 252) (1 / 252) 42 42 rfl rfl rfl).1

/-- C9: the simulation entry point returns the invalid-method error exactly
when the lowercased scheme selector is neither `"exact"` nor `"euler"`; for a
recognized selector it dispatches to the corresponding scheme and does not
produce this error. -/
theorem C9_method_dispatch :
    ∀ (p : VasicekParams) (dt : ℝ) (z : ℕ → ℕ → ℝ) (method : String),
      (run_monte_carlo_simulation p dt method z = .error .invalidMethod
        ↔ ¬(strLower method = "exact" ∨ strLower method = "euler"))
      ∧ (strLower method = "exact" →
          run_monte_carlo_simulation p dt method z = .ok (simulate_vasicek_exact p dt z))
      ∧ (strLower method = "euler" →
          run_monte_carlo_simulation p dt method z = .ok (simulate_vasicek_euler p dt z)) := by
  intro p dt z method
  unfold run_monte_carlo_simulation
  by_cases h1 : strLower method = "exact"
  · have h2 : ¬ strLower method = "euler" := by
      rw [h1]; intro hc; exact absurd hc (by decide)
    simp [h1, h2]
  · by_cases h2 : strLower method = "euler" <;> simp [h1, h2]

theorem C9_method_dispatch_witness :
    run_monte_carlo_simulation ⟨0.5, 0.03, 0.01, 0.03⟩ (1 / 252) "EULER" (fun _ _ => 0)
      = .ok (simulate_vasicek_euler ⟨0.5, 0.03, 0.01, 0.03⟩ (1 / 252) (fun _ _ => 0)) :=
  (C9_method_dispatch ⟨0.5, 0.03, 0.01, 0.03⟩ (1 / 252) (fun _ _ => 0) "EULER").2.2 (by decide)

/-- C4: whenever either calibration strategy returns (rather than raises),
the returned parameter set satisfies `kappa > 0` and `sigma > 0` — the
regression strategy clamps offending values to small positive floors
(`max 0.001 kappa`, `sigma := 0.01` when non-positive), and the likelihood
strategy's optimized point lies inside the positive box constraints it was
given. -/
theorem C4_positive_params :
    ∀ (rates : List ℝ) (dt : ℝ) (opt : Option OptResult),
      (∀ res, opt = some res → res.success = true → optWithinBounds rates res) →
      (∀ p, calibrate_vasicek_ols rates dt = .ok p → 0 < p.kappa ∧ 0 < p.sigma)
      ∧ (∀ p, calibrate_vasicek_mle rates dt opt = .ok p → 0 < p.kappa ∧ 0 < p.sigma) := by
  intro rates dt opt hb
  refine ⟨fun p h => ols_returns_positive rates dt p h, fun p h => ?_⟩
  by_cases hn : rates.length < 10
  · simp only [calibrate_vasicek_mle, if_pos hn] at h
    exact absurd h (by simp)
  · simp only [calibrate_vasicek_mle, if_neg hn] at h
    cases opt with
    | none => exact ols_returns_positive rates dt p h
    | some res =>
      by_cases hs : res.success
      · simp only [hs, if_true, Except.ok.injEq] at h
        subst h
        obtain ⟨hk, _, _, _, hσ, _⟩ := hb res rfl hs
        exact ⟨lt_of_lt_of_le (by norm_num) hk, lt_of_lt_of_le (by norm_num) hσ⟩
      · simp only [hs] at h
        exact ols_returns_positive rates dt p h

theorem C4_positive_params_witness :
    0 < (VasicekParams.mk 1 0 0.5 0).kappa ∧ 0 < (VasicekParams.mk 1 0 0.5 0).sigma :=
  (C4_positive_params elevenObs 1 (some ⟨true, 1, 0, 0.5⟩)
      (by
        intro res hres _
        cases hres
        refine ⟨by norm_num, by norm_num, ?_, ?_, by norm_num, by norm_num⟩ <;>
          simp [listMin, listMax, elevenObs] <;> norm_num)).2
    ⟨1, 0, 0.5, 0⟩
    (by simp [calibrate_vasicek_mle, elevenObs])

/-- C2 counterexample: the claim fails on a series of exactly ten
observations — it is accepted by the likelihood entry check (`¬ len < 10`),
yet when the optimizer reports non-convergence the regression fallback
raises the insufficient-data error to the caller (it sees only nine
consecutive pairs). -/
theorem C2_counterexample :
    ¬ tenObs.length < 10
      ∧ calibrate_vasicek_mle tenObs (1 / 252) (some ⟨false, 1, 1, 1⟩)
          = .error .insufficientData := by
  constructor
  · simp [tenObs]
  · have hml : ¬ tenObs.length < 10 := by simp [tenObs]
    have hn : tenObs.dropLast.length < 10 := by
      rw [List.length_dropLast]; simp [tenObs]
    simp only [calibrate_vasicek_mle, if_neg hml]
    simp only [calibrate_vasicek_ols, if_pos hn]
    simp

/-- C2 amended: for every rate series of at least eleven observations, the
likelihood strategy never raises: whatever the optimizer does (raises,
fails to converge, or succeeds), the caller receives a parameter set. (A
series of exactly ten observations passes the likelihood entry check but the
regression fallback's own check re-raises on optimizer failure.) -/
theorem C2_mle_no_raise :
    ∀ (rates : List ℝ) (dt : ℝ) (opt : Option OptResult), 11 ≤ rates.length →
      ∃ p, calibrate_vasicek_mle rates dt opt = .ok p := by
  intro rates dt opt h
  obtain ⟨p, hp⟩ := ols_ok_of_long rates dt h
  have hml : ¬ rates.length < 10 := by omega
  cases opt with
  | none => exact ⟨p, by simp only [calibrate_vasicek_mle, if_neg hml]; exact hp⟩
  | some res =>
    by_cases hs : res.success
    · exact ⟨⟨res.kappa, res.theta, res.sigma, rates.getLastD 0⟩, by
        simp only [calibrate_vasicek_mle, if_neg hml, hs, if_true]⟩
    · exact ⟨p, by simp only [calibrate_vasicek_mle, if_neg hml, hs]; exact hp⟩

theorem C2_mle_no_raise_witness :
    ∃ p, calibrate_vasicek_mle elevenObs 1 none = .ok p :=
  C2_mle_no_raise elevenObs 1 none (by simp [elevenObs])

/-- C3 counterexample: the claim fails on a ten-observation series — it has
at least 10 observations, yet the regression strategy raises the
insufficient-data error, because its guard counts the consecutive pairs
(`len(r) - 1 = 9 < 10`). -/
theorem C3_counterexample :
    ¬ tenObsB.length < 10
      ∧ calibrate_vasicek_ols tenObsB (1 / 252) = .error .insufficientData := by
  constructor
  · simp [tenObsB]
  · have hn : tenObsB.dropLast.length < 10 := by
      rw [List.length_dropLast]; simp [tenObsB]
    simp only [calibrate_vasicek_ols, if_pos hn]

/-- C3 amended: the regression strategy raises the insufficient-data error
iff the series has fewer than 11 observations (its guard is on the
`len - 1` consecutive pairs); the likelihood strategy raises it iff the
series has fewer than 10 observations, or exactly 10 and the optimizer does
not succeed (the fallback then re-raises); a series of length 5 raises
regardless of method. -/
theorem C3_insufficient_data_thresholds :
    ∀ (rates : List ℝ) (dt : ℝ) (opt : Option OptResult),
      (calibrate_vasicek_ols rates dt = .error .insufficientData ↔ rates.length < 11)
      ∧ (calibrate_vasicek_mle rates dt opt = .error .insufficientData ↔
          rates.length < 10 ∨ (rates.length = 10 ∧ optFailed opt))
      ∧ (rates.length = 5 →
          calibrate_vasicek_ols rates dt = .error .insufficientData
            ∧ calibrate_vasicek_mle rates dt opt = .error .insufficientData) := by
  intro rates dt opt
  have hols : calibrate_vasicek_ols rates dt = .error .insufficientData ↔
      rates.length < 11 := by
    by_cases hn : rates.dropLast.length < 10
    · rw [List.length_dropLast] at hn
      simp only [calibrate_vasicek_ols, List.length_dropLast, if_pos hn]
      simpa using by omega
    · rw [List.length_dropLast] at hn
      simp only [calibrate_vasicek_ols, List.length_dropLast, if_neg hn]
      simpa using by omega
  have hmle : calibrate_vasicek_mle rates dt opt = .error .insufficientData ↔
      rates.length < 10 ∨ (rates.length = 10 ∧ optFailed opt) := by
    by_cases hml : rates.length < 10
    · simp only [calibrate_vasicek_mle, if_pos hml]
      simpa using Or.inl hml
    · simp only [calibrate_vasicek_mle, if_neg hml]
      cases opt with
      | none =>
        rw [hols]
        simp only [optFailed]
        constructor
        · intro h; exact Or.inr ⟨by omega, trivial⟩
        · rintro (h | ⟨h, _⟩) <;> omega
      | some res =>
        dsimp only
        by_cases hs : res.success
        · rw [if_pos hs]
          simp only [optFailed]
          constructor
          · intro h; exact absurd h (by simp)
          · rintro (h | ⟨_, hfail⟩)
            · omega
            · rw [hs] at hfail; exact absurd hfail (by simp)
        · rw [if_neg hs, hols]
          simp only [optFailed]
          constructor
          · intro h
            exact Or.inr ⟨by omega, by simpa using hs⟩
          · rintro (h | ⟨h, _⟩) <;> omega
  refine ⟨hols, hmle, fun h5 => ⟨hols.mpr (by omega), hmle.mpr (Or.inl (by omega))⟩⟩

theorem C3_insufficient_data_thresholds_witness :
    calibrate_vasicek_ols fiveObs 1 = .error .insufficientData
      ∧ calibrate_vasicek_mle fiveObs 1 none = .error .insufficientData :=
  (C3_insufficient_data_thresholds fiveObs 1 none).2.2 (by simp [fiveObs])

/-- C8: the negative log-likelihood objective is a total function; it
returns the sentinel `1e10` whenever `kappa ≤ 0` or `sigma ≤ 0`, or when the
implied transition variance `sigma²·(1-exp(-2·kappa·dt))/(2·kappa)` is
non-positive (overflow and division by zero cannot occur over `ℝ`), and
otherwise returns the negated sum over consecutive observations of the
Gaussian log-density with conditional mean
`theta + (r[t]-theta)·exp(-kappa·dt)` and that variance. -/
theorem C8_nll_total_with_sentinel :
    ∀ (r : List ℝ) (dt kappa theta sigma : ℝ),
      (kappa ≤ 0 ∨ sigma ≤ 0 → neg_log_likelihood r dt kappa theta sigma = 1e10)
      ∧ (0 < kappa → 0 < sigma →
          (sigma ^ 2 * (1 - Real.exp (-2 * kappa * dt)) / (2 * kappa) ≤ 0 →
            neg_log_likelihood r dt kappa theta sigma = 1e10)
          ∧ (0 < sigma ^ 2 * (1 - Real.exp (-2 * kappa * dt)) / (2 * kappa) →
              neg_log_likelihood r dt kappa theta sigma =
                -((r.zip r.tail).map fun q =>
                  -(1 / 2) * Real.log (2 * Real.pi *
                      (sigma ^ 2 * (1 - Real.exp (-2 * kappa * dt)) / (2 * kappa)))
                    - (q.2 - (theta + (q.1 - theta) * Real.exp (-kappa * dt))) ^ 2 /
                      (2 * (sigma ^ 2 * (1 - Real.exp (-2 * kappa * dt)) / (2 * kappa)))).sum)) := by
  intro r dt kappa theta sigma
  have hexp : Real.exp (-kappa * dt) ^ 2 = Real.exp (-2 * kappa * dt) := by
    rw [sq, ← Real.exp_add]; ring_nf
  constructor
  · intro h
    simp only [neg_log_likelihood, if_pos h]
  · intro hk hs
    have hknot : ¬ (kappa ≤ 0 ∨ sigma ≤ 0) := by push_neg; exact ⟨hk, hs⟩
    constructor
    · intro hv
      have hv' : sigma ^ 2 * (1 - Real.exp (-kappa * dt) ^ 2) / (2 * kappa) ≤ 0 := by
        rw [hexp]; exact hv
      simp only [neg_log_likelihood, if_neg hknot, if_pos hv']
    · intro hv
      have hv' : ¬ sigma ^ 2 * (1 - Real.exp (-kappa * dt) ^ 2) / (2 * kappa) ≤ 0 := by
        rw [hexp]; exact not_le.mpr hv
      simp only [neg_log_likelihood, if_neg hknot, if_neg hv']
      simp only [hexp]
      have hpt : ∀ L v e : ℝ,
          -0.5 * Real.log L - 0.5 * e / v = -(1 / 2) * Real.log L - e / (2 * v) := by
        intro L v e
        rw [← div_div]
        ring
      simp only [hpt]

theorem C8_nll_total_with_sentinel_witness :
    neg_log_likelihood [] 1 (-1) 0 1 = 1e10 :=
  (C8_nll_total_with_sentinel [] 1 (-1) 0 1).1 (Or.inl (by norm_num))

/-- C10: the mean maximum-drawdown statistic divides by each path's running
maximum with no guard, so its float value is finite exactly under the
precondition that every path's running maximum is nonzero at every time
step; a trajectory matrix whose first row is 0 (here the 2×1 matrix with
rows 0 then 1) makes the computed statistic non-finite. -/
theorem C10_drawdown_zero_peak :
    (∀ (paths : ℕ → ℕ → ℝ) (n_steps n_paths : ℕ),
        (∀ j < n_paths, ∀ t ≤ n_steps, runningMax paths j t ≠ 0) →
        (calculate_max_drawdown paths n_steps n_paths).isSome = true)
    ∧ calculate_max_drawdown (fun t _ => if t = 0 then 0 else 1) 1 1 = none := by
  constructor
  · intro paths n_steps n_paths h
    rw [calculate_max_drawdown, if_neg]
    · rfl
    · rintro ⟨j, hj, t, ht, h0⟩
      rw [Finset.mem_range] at hj ht
      exact h j hj t (Nat.lt_succ_iff.mp ht) h0
  · rw [calculate_max_drawdown, if_pos]
    exact ⟨0, by simp, 0, by simp, by simp [runningMax]⟩

theorem C10_drawdown_zero_peak_witness :
    (calculate_max_drawdown (fun _ _ => 1) 1 1).isSome = true :=
  C10_drawdown_zero_peak.1 (fun _ _ => 1) 1 1 (by
    intro j hj t ht
    interval_cases t <;> simp [runningMax])

/-- C5 counterexample: on the twelve-observation halving series with
`dt = 1000`, the fitted slope is `b = 1/2`, so the claim's steps give
`kappa = -ln(1/2)/1000 = ln(2)/1000 ≈ 0.000693`, while the source returns
`max(0.001, kappa) = 0.001`: the claim's step list (which never floors
`kappa`) does not compute the source's result. -/
theorem C5_counterexample :
    calibrate_vasicek_ols geomObs 1000 ≠ ols_claim_steps geomObs 1000 := by
  have hfit : lstsqFit geomObs.dropLast geomObs.tail = ((0 : ℝ), (1 / 2 : ℝ)) := by
    norm_num [lstsqFit, geomObs, List.dropLast, List.zip, List.zipWith]
  have hn : ¬ geomObs.dropLast.length < 10 := by
    rw [List.length_dropLast]; simp [geomObs]
  intro h
  simp only [calibrate_vasicek_ols, ols_claim_steps, if_neg hn, hfit] at h
  norm_num at h
  have hlog : -Real.log (1 / 2 : ℝ) = Real.log 2 := by
    rw [one_div, Real.log_inv, neg_neg]
  rw [hlog] at h
  have h2 := Real.log_two_lt_d9
  linarith

/-- C5 amended: the regression strategy computes its result by exactly the
claim's steps followed by one final floor, `kappa := max(0.001, kappa)`:
for every series and step size the source function equals the amended
pipeline. -/
theorem C5_regression_steps :
    ∀ (rates : List ℝ) (dt : ℝ),
      calibrate_vasicek_ols rates dt = ols_claim_steps_amended rates dt := by
  intro rates dt
  by_cases hn : rates.dropLast.length < 10
  · simp only [calibrate_vasicek_ols, ols_claim_steps_amended, ols_claim_steps,
      if_pos hn, Except.map]
  · simp only [calibrate_vasicek_ols, ols_claim_steps_amended, ols_claim_steps,
      if_neg hn, Except.map, clamp_forms_agree]

/-- C1: the validation group's theoretical terminal mean is computed with
total time `T = (steps+1)·dt` — the source takes `T = len(paths)·dt` and
`len(paths)` is the row count `steps+1` — not the claim's `T = steps·dt`:
in general the reported value is `theta + (r0-theta)·exp(-kappa·((steps+1)·dt))`,
and at the concrete input `steps = 1, dt = 1, kappa = 1, theta = 0, r0 = 1`
it is `exp(-2)`, which differs from the claim's `exp(-1·(1·1)) = exp(-1)`. -/
theorem C1_validation_time_off_by_one :
    (∀ (paths : ℕ → ℕ → ℝ) (n_steps n_paths : ℕ) (p : VasicekParams) (dt : ℝ),
      (calculate_simulation_statistics_validation paths n_steps n_paths p dt).theoretical_terminal_mean
        = p.theta + (p.r0 - p.theta) * Real.exp (-p.kappa * (((n_steps : ℝ) + 1) * dt)))
    ∧ (calculate_simulation_statistics_validation (fun _ _ => 0) 1 1 ⟨1, 0, 1, 1⟩ 1).theoretical_terminal_mean
        ≠ (0 : ℝ) + ((1 : ℝ) - 0) * Real.exp (-(1 : ℝ) * (((1 : ℕ) : ℝ) * 1)) := by
  constructor
  · intro paths n_steps n_paths p dt
    rfl
  · have hL : (calculate_simulation_statistics_validation (fun _ _ => 0) 1 1
        ⟨1, 0, 1, 1⟩ 1).theoretical_terminal_mean = Real.exp (-2) := by
      simp only [calculate_simulation_statistics_validation]
      norm_num
    have hR : (0 : ℝ) + ((1 : ℝ) - 0) * Real.exp (-(1 : ℝ) * (((1 : ℕ) : ℝ) * 1))
        = Real.exp (-1) := by
      norm_num
    rw [hL, hR]
    intro h
    have h12 := Real.exp_eq_exp.mp h
    norm_num at h12

end EuriborMC
